import Mathlib

/-!
Verification of the interview-transcript summarizer frontend core: the
transcript validator, the debounced validation trigger, the processing
state machine, the progress simulator and the request orchestrator
(`useInterviewProcessor.ts` and `InterviewForm.tsx`).

The TypeScript code is shallowly embedded: React state updates become
explicit state passing on a `HookState` record, the `setInterval` progress
simulator becomes the `tick` function on `ProcessingState` together with a
`timerActive` flag recording whether the interval is still scheduled, and
the single `await` of the API client becomes a parameter giving the
outcome of the remote call on the request that was sent.
-/

/-- The `ProcessingState` record from `lib/types`, as used by `useInterviewProcessor.ts`:
`{ isLoading, progress, currentTask, error }`. -/
structure ProcessingState where
  isLoading : Bool
  progress : Nat
  currentTask : String
  error : Option String
deriving Repr, DecidableEq

/-- The `InterviewResult` record from `lib/types`: summary, highlights, lowlights,
key named entities (a label-to-value mapping, embedded as an association
list), optional numeric processing time, and the model identifier. -/
structure InterviewResult where
  summary : String
  highlights : List String
  lowlights : List String
  key_named_entities : List (String × String)
  processing_time : Option ℚ
  model : String
deriving Repr, DecidableEq

/-- The raw response shape returned by the API client
(`apiClient.processInterview`), with the same fields the hook reads. -/
structure ApiResponse where
  summary : String
  highlights : List String
  lowlights : List String
  key_named_entities : List (String × String)
  processing_time : Option ℚ
  model : String
deriving Repr, DecidableEq

/-- The `InterviewTranscriptRequest` record from `lib/types`: the payload built in
`processInterview` lines 64-67: `{ transcript, model }`. -/
structure InterviewTranscriptRequest where
  transcript : String
  model : String
deriving Repr, DecidableEq

/-- One entry of the `progressSteps` table in `processInterview`. -/
structure ProgressStep where
  progress : Nat
  task : String
deriving Repr, DecidableEq

/-- The fixed `progressSteps` table (`useInterviewProcessor.ts` lines 39-46). -/
def progressSteps : List ProgressStep :=
  [ { progress := 10, task := "Validating transcript..." },
    { progress := 25, task := "Preprocessing text..." },
    { progress := 40, task := "Analyzing content with AI..." },
    { progress := 60, task := "Extracting highlights and lowlights..." },
    { progress := 80, task := "Identifying key information..." },
    { progress := 95, task := "Finalizing results..." } ]

/-- One firing of the `setInterval` callback (`useInterviewProcessor.ts`
lines 49-61): find the first step whose `progress` exceeds the current
progress and move to it, otherwise leave the state unchanged. -/
def tick (prev : ProcessingState) : ProcessingState :=
  match progressSteps.find? (fun step => decide (step.progress > prev.progress)) with
  | some nextStep =>
      { prev with progress := nextStep.progress, currentTask := nextStep.task }
  | none => prev

/-- The description in the spec of a simulator tick as explicit progress ranges:
below 10 go to step (10, validating); from 10 up to 25 go to (25,
preprocessing); and so on; at 95 or above the tick is a no-op. Stated from
the words of the spec, to be compared with `tick` which is read off the code. -/
def tickSpec (prev : ProcessingState) : ProcessingState :=
  if prev.progress < 10 then
    { prev with progress := 10, currentTask := "Validating transcript..." }
  else if prev.progress < 25 then
    { prev with progress := 25, currentTask := "Preprocessing text..." }
  else if prev.progress < 40 then
    { prev with progress := 40, currentTask := "Analyzing content with AI..." }
  else if prev.progress < 60 then
    { prev with progress := 60, currentTask := "Extracting highlights and lowlights..." }
  else if prev.progress < 80 then
    { prev with progress := 80, currentTask := "Identifying key information..." }
  else if prev.progress < 95 then
    { prev with progress := 95, currentTask := "Finalizing results..." }
  else prev

/-- The observable state of the hook: the `result` slot, the `ProcessingState`,
and whether the progress interval started by the current `processInterview`
call is still scheduled (`true` until `clearInterval` runs on it). -/
structure HookState where
  result : Option InterviewResult
  ps : ProcessingState
  timerActive : Bool
deriving Repr, DecidableEq

/-- The state written on entering `processInterview`
(`useInterviewProcessor.ts` lines 30-35). -/
def submittingState : ProcessingState :=
  { isLoading := true, progress := 0, currentTask := "Validating transcript...", error := none }

/-- JavaScript string-or-default (`s || d`) for a string that may be undefined: the default is
taken both when the value is absent and when it is the empty string
(the empty string is falsy). -/
def jsStringOr (s : Option String) (d : String) : String :=
  match s with
  | some v => if v = "" then d else v
  | none => d

/-- The request payload built in `processInterview` lines 64-67:
as `{ transcript, model: model-or-default }` with the Claude 3.5 Sonnet default. -/
def buildRequest (transcript : String) (model : Option String) : InterviewTranscriptRequest :=
  { transcript := transcript, model := jsStringOr model "anthropic/claude-3.5-sonnet" }

/-- How the remote call settles: resolution with a response, or rejection
carrying the `message` of the thrown value (`none` embeds an absent/undefined
`message` property, `some ""` an empty one). -/
inductive ApiOutcome where
  | success (response : ApiResponse)
  | failure (message : Option String)

/-- The field-by-field mapping from the raw response to `InterviewResult`
(`useInterviewProcessor.ts` lines 76-83). -/
def toInterviewResult (r : ApiResponse) : InterviewResult :=
  { summary := r.summary,
    highlights := r.highlights,
    lowlights := r.lowlights,
    key_named_entities := r.key_named_entities,
    processing_time := r.processing_time,
    model := r.model }

/-- One complete run of `processInterview` (`useInterviewProcessor.ts`
lines 27-108), embedded as a function of: the arguments, the number of
simulator ticks that fire while the call is pending, the behavior of the
API client on the request it is sent, and the hook state before the call.
The returned `Except` records whether the call throws to its caller:
the `try`/`catch` swallows every rejection, so every branch is `.ok`.
Faithful to the source:
* entering, it clears `result` and writes `submittingState`, and the
  freshly created interval makes the timer active;
* the pending ticks mutate only `ProcessingState`; both terminal
  `setProcessingState` calls then overwrite the whole object, so the final
  state does not depend on them;
* on success `clearInterval` runs (timer inactive), the response is mapped
  into the `result` slot, and the state becomes complete;
* on failure the `catch` block writes the failure state but never calls
  `clearInterval` (its own comment announces the cleanup but no call follows), so the timer
  stays active. -/
def runProcessInterview (transcript : String) (model : Option String) (preTicks : Nat)
    (api : InterviewTranscriptRequest → ApiOutcome) (_prior : HookState) :
    Except String HookState :=
  let started : HookState :=
    { result := none, ps := submittingState, timerActive := true }
  let pending : HookState := { started with ps := tick^[preTicks] started.ps }
  match api (buildRequest transcript model) with
  | .success r =>
      .ok { result := some (toInterviewResult r),
            ps := { isLoading := false, progress := 100, currentTask := "Complete",
                    error := none },
            timerActive := false }
  | .failure msg =>
      .ok { pending with
            ps := { isLoading := false, progress := 0, currentTask := "",
                    error := some (jsStringOr msg "An unexpected error occurred") } }

/-- One interval period elapsing after `processInterview` has settled: the
scheduled callback fires only if the interval was not cleared. -/
def postTick (h : HookState) : HookState :=
  if h.timerActive then { h with ps := tick h.ps } else h

/-- The `reset` callback (`useInterviewProcessor.ts` lines 110-118): clear the result and
restore the idle `ProcessingState`. It does not touch any interval. -/
def resetHook (s : HookState) : HookState :=
  { s with
    result := none,
    ps := { isLoading := false, progress := 0, currentTask := "", error := none } }

/-- The `ValidationError` record from `lib/types`: `{ field, message }`, as in the
literal required-finding object built
in `InterviewForm.tsx`. -/
structure ValidationError where
  field : String
  message : String
deriving Repr, DecidableEq

/-- The finding for empty or whitespace-only input; the message is the
literal that appears in `InterviewForm.tsx` line 36. -/
def requiredFinding : ValidationError :=
  { field := "transcript", message := "Transcript is required" }

/-- The finding for input under the 50-character minimum. -/
def tooShortFinding : ValidationError :=
  { field := "transcript", message := "Transcript is too short" }

/-- The finding for input over the 50,000-character maximum. -/
def tooLongFinding : ValidationError :=
  { field := "transcript", message := "Transcript is too long" }

/-- Modelled from the spec: `validateTranscript` is defined in
`frontend/src/lib/utils.ts`, which is not among the provided sources; only
its caller `InterviewForm.tsx` is. Per the spec, all rules are checked
independently without short-circuiting: empty or whitespace-only text
yields "Transcript is required"; length below 50 yields a "too short"
finding; length above 50,000 yields a "too long" finding. The spec fixes
the "Transcript is required" wording but not the other two messages; the
wordings of `tooShortFinding` and `tooLongFinding` stand in for them. -/
def validateTranscript (text : String) : List ValidationError :=
  (if text.trim = "" then [requiredFinding] else []) ++
    (if text.length < 50 then [tooShortFinding] else []) ++
      (if text.length > 50000 then [tooLongFinding] else [])

/-- The `handleSubmit` callback (`InterviewForm.tsx` lines 49-68), reduced to its
observable effect on the parent: it calls `onSubmit(transcript,
selectedModel)` exactly when validation returns no findings and no
submission is in flight (`!isLoading`); otherwise `onSubmit` is not
invoked. `some (t, m)` records an invocation with those arguments. -/
def handleSubmit (transcript selectedModel : String) (isLoading : Bool) :
    Option (String × String) :=
  let errors := validateTranscript transcript
  if errors.isEmpty && !isLoading then some (transcript, selectedModel) else none

/-- The `disabled` condition of the submit button (`InterviewForm.tsx`
lines 234-244): `!isFormValid || isLoading || isValidating`. -/
def submitButtonDisabled (isFormValid isLoading isValidating : Bool) : Bool :=
  !isFormValid || isLoading || isValidating

/-- Modelled from the spec: the `debounce` utility is defined in
`frontend/src/lib/utils.ts`, which is not among the provided sources; only
its use in `InterviewForm.tsx` lines 21-29 is. Per the spec it is a
trailing-edge debounce: each call cancels the pending delayed invocation
and schedules a new one `delay` time units later; a pending invocation
fires only if no further call arrives before its deadline. `calls` is the
time-ordered list of `(arrival time, text)` call events; the pending
accumulator holds the scheduled `(deadline, text)`; the result is the list
of texts the wrapped function actually executes on, in firing order. -/
def debounceAux (delay : Nat) (pending : Option (Nat × String)) :
    List (Nat × String) → List String
  | [] =>
      match pending with
      | some (_, x) => [x]
      | none => []
  | (t, x) :: rest =>
      match pending with
      | some (d, y) =>
          if t < d then debounceAux delay (some (t + delay, x)) rest
          else y :: debounceAux delay (some (t + delay, x)) rest
      | none => debounceAux delay (some (t + delay, x)) rest

/-- Modelled from the spec: running the debounced trigger on a time-ordered
list of call events, starting with nothing pending, and letting time run
out after the last call. -/
def debounceRun (delay : Nat) (calls : List (Nat × String)) : List String :=
  debounceAux delay none calls

/-- The hook state before any submission: the initial `useState` values;
no interval exists yet. -/
def idleHookState : HookState :=
  { result := none,
    ps := { isLoading := false, progress := 0, currentTask := "", error := none },
    timerActive := false }

/-- The mock remote response from the success scenario in the spec. -/
def sampleResponse : ApiResponse :=
  { summary := "ok", highlights := ["a"], lowlights := [],
    key_named_entities := [("name", "Jane")], processing_time := none, model := "m" }

/-- The map-to-first-exceeding-step `find?` in `tick` computes exactly the
range-by-range description `tickSpec`. -/
theorem tick_eq_tickSpec (ps : ProcessingState) : tick ps = tickSpec ps := by
  rw [tick, tickSpec, progressSteps]
  by_cases h1 : ps.progress < 10
  · rw [List.find?_cons_of_pos _ (by simpa using h1)]
    simp [h1]
  · rw [List.find?_cons_of_neg _ (by simpa using h1)]
    by_cases h2 : ps.progress < 25
    · rw [List.find?_cons_of_pos _ (by simpa using h2)]
      simp [h1, h2]
    · rw [List.find?_cons_of_neg _ (by simpa using h2)]
      by_cases h3 : ps.progress < 40
      · rw [List.find?_cons_of_pos _ (by simpa using h3)]
        simp [h1, h2, h3]
      · rw [List.find?_cons_of_neg _ (by simpa using h3)]
        by_cases h4 : ps.progress < 60
        · rw [List.find?_cons_of_pos _ (by simpa using h4)]
          simp [h1, h2, h3, h4]
        · rw [List.find?_cons_of_neg _ (by simpa using h4)]
          by_cases h5 : ps.progress < 80
          · rw [List.find?_cons_of_pos _ (by simpa using h5)]
            simp [h1, h2, h3, h4, h5]
          · rw [List.find?_cons_of_neg _ (by simpa using h5)]
            by_cases h6 : ps.progress < 95
            · rw [List.find?_cons_of_pos _ (by simpa using h6)]
              simp [h1, h2, h3, h4, h5, h6]
            · rw [List.find?_cons_of_neg _ (by simpa using h6)]
              simp [h1, h2, h3, h4, h5, h6]

/-- A tick never lowers progress. -/
theorem tick_progress_mono (ps : ProcessingState) : ps.progress ≤ (tick ps).progress := by
  rw [tick_eq_tickSpec, tickSpec]
  split_ifs <;> simp <;> omega

/-- A tick never raises progress beyond the last step threshold, 95. -/
theorem tick_progress_le (ps : ProcessingState) :
    (tick ps).progress ≤ max ps.progress 95 := by
  rw [tick_eq_tickSpec, tickSpec]
  split_ifs <;> simp

/-- A tick leaves `isLoading` unchanged. -/
theorem tick_isLoading (ps : ProcessingState) : (tick ps).isLoading = ps.isLoading := by
  rw [tick_eq_tickSpec, tickSpec]
  split_ifs <;> rfl

/-- A tick leaves `error` unchanged. -/
theorem tick_error (ps : ProcessingState) : (tick ps).error = ps.error := by
  rw [tick_eq_tickSpec, tickSpec]
  split_ifs <;> rfl

/-- Iterated ticks never lower progress. -/
theorem tick_iter_progress_mono (n : Nat) (ps : ProcessingState) :
    ps.progress ≤ (tick^[n] ps).progress := by
  induction n generalizing ps with
  | zero => simp
  | succ n ih =>
      rw [Function.iterate_succ_apply]
      exact le_trans (tick_progress_mono ps) (ih (tick ps))

/-- Iterated ticks never raise progress beyond `max` of the start and 95. -/
theorem tick_iter_progress_le (n : Nat) (ps : ProcessingState) :
    (tick^[n] ps).progress ≤ max ps.progress 95 := by
  induction n generalizing ps with
  | zero => simp
  | succ n ih =>
      rw [Function.iterate_succ_apply]
      have h1 := tick_progress_le ps
      have h2 := ih (tick ps)
      omega

/-- Iterated ticks leave `isLoading` unchanged. -/
theorem tick_iter_isLoading (n : Nat) (ps : ProcessingState) :
    (tick^[n] ps).isLoading = ps.isLoading := by
  induction n generalizing ps with
  | zero => simp
  | succ n ih =>
      rw [Function.iterate_succ_apply, ih (tick ps), tick_isLoading]

/-- Iterated ticks leave `error` unchanged. -/
theorem tick_iter_error (n : Nat) (ps : ProcessingState) :
    (tick^[n] ps).error = ps.error := by
  induction n generalizing ps with
  | zero => simp
  | succ n ih =>
      rw [Function.iterate_succ_apply, ih (tick ps), tick_error]

/-- While a call with the pending text is scheduled, any chain of further
calls each arriving before the pending deadline keeps cancelling and
rescheduling, and in the end only the final text fires. -/
theorem debounceAux_rapid (delay : Nat) (calls : List (Nat × String)) :
    ∀ t x, List.Chain' (fun a b => b.1 < a.1 + delay) ((t, x) :: calls) →
      debounceAux delay (some (t + delay, x)) calls =
        [(((t, x) :: calls).getLast (by simp)).2] := by
  induction calls with
  | nil => intro t x _; simp [debounceAux]
  | cons hd rest ih =>
      intro t x hchain
      obtain ⟨t2, x2⟩ := hd
      rw [List.chain'_cons] at hchain
      obtain ⟨hlt, hchain2⟩ := hchain
      rw [debounceAux]
      simp only [hlt, if_pos]
      rw [ih t2 x2 hchain2]
      simp [List.getLast_cons]

/-- C5: a simulator tick advances progress to the first step in the fixed
sequence (10, 25, 40, 60, 80, 95) whose threshold strictly exceeds the
current progress, together with that step label, and is a no-op when no
such step exists (stated as `tick = tickSpec`); consequently over any
sequence of ticks progress is monotonically non-decreasing and never
exceeds 100. -/
theorem tick_advances_monotonically (ps : ProcessingState) (n : Nat) :
    tick ps = tickSpec ps
    ∧ (tick^[n] ps).progress ≤ (tick^[n + 1] ps).progress
    ∧ ps.progress ≤ (tick^[n] ps).progress
    ∧ (tick^[n] ps).progress ≤ max ps.progress 95
    ∧ (ps.progress ≤ 100 → (tick^[n] ps).progress ≤ 100) := by
  refine ⟨tick_eq_tickSpec ps, ?_, tick_iter_progress_mono n ps,
    tick_iter_progress_le n ps, ?_⟩
  · rw [Function.iterate_succ_apply']
    exact tick_progress_mono _
  · intro h
    have := tick_iter_progress_le n ps
    omega

/-- Witness for C5 at the state the orchestrator actually starts from,
with three ticks. -/
theorem tick_advances_monotonically_witness :
    submittingState.progress ≤ 100 ∧ (tick^[3] submittingState).progress ≤ 100 := by
  obtain ⟨-, -, -, -, h⟩ := tick_advances_monotonically submittingState 3
  exact ⟨by decide, h (by decide)⟩

/-- C10: a simulator tick callback modifies at most the `progress` and
`currentTask` fields: `isLoading` and `error` are unchanged by every tick,
so through any number of in-flight ticks from the submitting state,
`isLoading` stays `true` and `error` stays `none`. -/
theorem tick_frame_preserves_isLoading_error (ps : ProcessingState) (n : Nat) :
    (tick ps).isLoading = ps.isLoading
    ∧ (tick ps).error = ps.error
    ∧ (tick^[n] ps).isLoading = ps.isLoading
    ∧ (tick^[n] ps).error = ps.error
    ∧ (tick^[n] submittingState).isLoading = true
    ∧ (tick^[n] submittingState).error = none :=
  ⟨tick_isLoading ps, tick_error ps, tick_iter_isLoading n ps, tick_iter_error n ps,
    by rw [tick_iter_isLoading]; rfl, by rw [tick_iter_error]; rfl⟩

/-- C8: from every prior state, `reset` yields the idle state: the stored
result becomes `none` and the `ProcessingState` is cleared to
`isLoading = false`, `progress = 0`, empty task, no error. -/
theorem resetHook_yields_idle (s : HookState) :
    (resetHook s).result = none
    ∧ (resetHook s).ps =
        { isLoading := false, progress := 0, currentTask := "", error := none } :=
  ⟨rfl, rfl⟩

/-- C6: while a submission is in flight (`isLoading = true`), `handleSubmit`
never invokes `onSubmit`, and the submit button is disabled, so at most one
submission is in flight at a time. -/
theorem submit_gate_blocks_while_loading (transcript selectedModel : String) :
    handleSubmit transcript selectedModel true = none
    ∧ ∀ isFormValid isValidating : Bool,
        submitButtonDisabled isFormValid true isValidating = true := by
  constructor
  · rw [handleSubmit]
    simp
  · intro fv v
    rw [submitButtonDisabled]
    simp

/-- C4: `validateTranscript` yields the required finding exactly on empty
or whitespace-only text, the too-short finding exactly below 50
characters, the too-long finding exactly above 50,000 characters, and no
findings at all exactly on non-blank text within both bounds. -/
theorem validateTranscript_findings_characterization (text : String) :
    (validateTranscript text = [] ↔
      (text.trim ≠ "" ∧ 50 ≤ text.length ∧ text.length ≤ 50000))
    ∧ (requiredFinding ∈ validateTranscript text ↔ text.trim = "")
    ∧ (tooShortFinding ∈ validateTranscript text ↔ text.length < 50)
    ∧ (tooLongFinding ∈ validateTranscript text ↔ text.length > 50000) := by
  unfold validateTranscript
  split_ifs with h1 h2 h3 <;>
    simp_all [requiredFinding, tooShortFinding, tooLongFinding]

/-- C7: when every call of a burst arrives within the delay window of its
predecessor, the debounced trigger executes exactly once, on the text of
the last call; the intermediate calls are discarded. -/
theorem debounce_runs_once_on_last_text (delay : Nat) (calls : List (Nat × String))
    (hchain : List.Chain' (fun a b => b.1 < a.1 + delay) calls) :
    debounceRun delay calls = (calls.getLast?.map Prod.snd).toList := by
  cases calls with
  | nil => simp [debounceRun, debounceAux]
  | cons hd rest =>
      obtain ⟨t, x⟩ := hd
      rw [debounceRun, debounceAux, debounceAux_rapid delay rest t x hchain]
      rw [List.getLast?_eq_getLast_of_ne_nil (by simp)]
      simp

/-- Witness for C7: three rapid calls 100 and 250 time units apart under a
300-unit delay fire the validator once, on the last text. -/
theorem debounce_runs_once_on_last_text_witness :
    List.Chain' (fun (a b : Nat × String) => b.1 < a.1 + 300)
        [(0, "a"), (100, "b"), (350, "c")]
    ∧ debounceRun 300 [(0, "a"), (100, "b"), (350, "c")] = ["c"] := by
  refine ⟨by norm_num [List.chain'_cons], ?_⟩
  have h := debounce_runs_once_on_last_text 300 [(0, "a"), (100, "b"), (350, "c")]
    (by norm_num [List.chain'_cons])
  simpa using h

/-- C2: every rejection of the remote call is caught at the orchestrator
boundary and never rethrown (the run returns normally, `Except.ok`), and
the resulting `ProcessingState` has `isLoading = false`, `progress = 0`,
an empty task label, and `error` equal to the message of the failure when
it has non-empty content, falling back to the generic message when the
thrown value carries no message (absent or empty `message`). -/
theorem failure_state_after_rejection (transcript : String) (model : Option String)
    (preTicks : Nat) (msg : Option String)
    (api : InterviewTranscriptRequest → ApiOutcome) (s0 : HookState)
    (hapi : api (buildRequest transcript model) = ApiOutcome.failure msg) :
    ∃ h, runProcessInterview transcript model preTicks api s0 = Except.ok h
      ∧ h.ps.isLoading = false
      ∧ h.ps.progress = 0
      ∧ h.ps.currentTask = ""
      ∧ (∀ m, msg = some m → m ≠ "" → h.ps.error = some m)
      ∧ ((msg = none ∨ msg = some "") →
          h.ps.error = some "An unexpected error occurred") := by
  simp only [runProcessInterview, hapi]
  refine ⟨_, rfl, rfl, rfl, rfl, ?_, ?_⟩
  · intro m hm hne
    subst hm
    simp [jsStringOr, hne]
  · rintro (rfl | rfl) <;> simp [jsStringOr]

/-- Witness for C2: the scenario from the spec, a rejection carrying the
message "rate limited". -/
theorem failure_state_after_rejection_witness :
    ∃ h, runProcessInterview "t" none 0
        (fun _ => ApiOutcome.failure (some "rate limited")) idleHookState = Except.ok h
      ∧ h.ps.error = some "rate limited"
      ∧ h.ps.isLoading = false
      ∧ h.ps.progress = 0 := by
  obtain ⟨h, hok, hl, hp, -, hmsg, -⟩ :=
    failure_state_after_rejection "t" none 0 (some "rate limited")
      (fun _ => ApiOutcome.failure (some "rate limited")) idleHookState rfl
  exact ⟨h, hok, hmsg "rate limited" rfl (by decide), hl, hp⟩

/-- C3: on every successful resolution, regardless of how many simulator
ticks fired before it, the stored result mirrors the response fields
one-for-one and the final `ProcessingState` is complete: not loading,
progress 100, task "Complete", no error. -/
theorem success_state_mirrors_response (transcript : String) (model : Option String)
    (preTicks : Nat) (r : ApiResponse)
    (api : InterviewTranscriptRequest → ApiOutcome) (s0 : HookState)
    (hapi : api (buildRequest transcript model) = ApiOutcome.success r) :
    ∃ h, runProcessInterview transcript model preTicks api s0 = Except.ok h
      ∧ h.result = some { summary := r.summary, highlights := r.highlights,
                          lowlights := r.lowlights,
                          key_named_entities := r.key_named_entities,
                          processing_time := r.processing_time, model := r.model }
      ∧ h.ps = { isLoading := false, progress := 100, currentTask := "Complete",
                 error := none }
      ∧ h.timerActive = false := by
  simp only [runProcessInterview, hapi]
  exact ⟨_, rfl, rfl, rfl, rfl⟩

/-- Witness for C3: the mock response of the success scenario in the spec,
after two simulator ticks. -/
theorem success_state_mirrors_response_witness :
    ∃ h, runProcessInterview "t" none 2
        (fun _ => ApiOutcome.success sampleResponse) idleHookState = Except.ok h
      ∧ h.result = some { summary := "ok", highlights := ["a"], lowlights := [],
                          key_named_entities := [("name", "Jane")],
                          processing_time := none, model := "m" }
      ∧ h.ps.progress = 100
      ∧ h.ps.currentTask = "Complete" := by
  obtain ⟨h, hok, hres, hps, -⟩ :=
    success_state_mirrors_response "t" none 2 sampleResponse
      (fun _ => ApiOutcome.success sampleResponse) idleHookState rfl
  exact ⟨h, hok, hres, by rw [hps], by rw [hps]⟩

/-- C1 as stated is false of the code: on rejection the `catch` block never
calls `clearInterval` (only its comment says so), so after the failure
state is written the interval is still active and its next firing mutates
`ProcessingState` again, lifting progress from 0 back to 10. On success
the interval is cleared and a later firing changes nothing. This theorem
evaluates the code at the failing input. -/
theorem interval_not_cleared_on_failure :
    runProcessInterview "some interview transcript" none 0
        (fun _ => ApiOutcome.failure (some "rate limited")) idleHookState =
      Except.ok { result := none,
                  ps := { isLoading := false, progress := 0, currentTask := "",
                          error := some "rate limited" },
                  timerActive := true }
    ∧ (postTick { result := none,
                  ps := { isLoading := false, progress := 0, currentTask := "",
                          error := some "rate limited" },
                  timerActive := true }).ps.progress = 10
    ∧ (postTick { result := none,
                  ps := { isLoading := false, progress := 0, currentTask := "",
                          error := some "rate limited" },
                  timerActive := true }).ps.currentTask = "Validating transcript..."
    ∧ runProcessInterview "some interview transcript" none 0
        (fun _ => ApiOutcome.success sampleResponse) idleHookState =
      Except.ok { result := some { summary := "ok", highlights := ["a"], lowlights := [],
                                   key_named_entities := [("name", "Jane")],
                                   processing_time := none, model := "m" },
                  ps := { isLoading := false, progress := 100, currentTask := "Complete",
                          error := none },
                  timerActive := false }
    ∧ postTick { result := some { summary := "ok", highlights := ["a"], lowlights := [],
                                  key_named_entities := [("name", "Jane")],
                                  processing_time := none, model := "m" },
                 ps := { isLoading := false, progress := 100, currentTask := "Complete",
                         error := none },
                 timerActive := false } =
        { result := some { summary := "ok", highlights := ["a"], lowlights := [],
                           key_named_entities := [("name", "Jane")],
                           processing_time := none, model := "m" },
          ps := { isLoading := false, progress := 100, currentTask := "Complete",
                  error := none },
          timerActive := false } :=
  ⟨rfl, rfl, rfl, rfl, rfl⟩

/-- C9 as stated is false of the code at one input: an explicitly supplied
empty-string model identifier does not end up in the payload, because the
JavaScript or-default treats the empty string as absent. -/
theorem buildRequest_empty_model_counterexample :
    (buildRequest "t" (some "")).model = "anthropic/claude-3.5-sonnet"
    ∧ (buildRequest "t" (some "")).model ≠ "" := by
  refine ⟨rfl, by decide⟩

/-- C9 amended: the payload always carries the given transcript; its model
field equals the supplied model identifier when a non-empty one is
supplied, and equals the default model when the model argument is omitted
or is the empty string. -/
theorem buildRequest_model_default_amended (transcript : String) (model : Option String) :
    (buildRequest transcript model).transcript = transcript
    ∧ (∀ m, model = some m → m ≠ "" →
        (buildRequest transcript model).model = m)
    ∧ ((model = none ∨ model = some "") →
        (buildRequest transcript model).model = "anthropic/claude-3.5-sonnet") := by
  refine ⟨rfl, ?_, ?_⟩
  · intro m hm hne
    subst hm
    simp [buildRequest, jsStringOr, hne]
  · rintro (rfl | rfl) <;> simp [buildRequest, jsStringOr]

/-- Witness for the amended C9: a supplied non-empty model identifier is
used verbatim. -/
theorem buildRequest_model_default_amended_witness :
    (buildRequest "abc" (some "openai/gpt-4o")).transcript = "abc"
    ∧ (buildRequest "abc" (some "openai/gpt-4o")).model = "openai/gpt-4o" := by
  obtain ⟨ht, hm, -⟩ := buildRequest_model_default_amended "abc" (some "openai/gpt-4o")
  exact ⟨ht, hm "openai/gpt-4o" rfl (by decide)⟩
